import Mathlib

/-!
Verification of the scraping-and-import pipeline of the
`app-collection-manager` backend.

The development shallowly embeds the Python modules
`backend/scrapers/bubblebd/albums.py`, `backend/services/book_service.py`
and `backend/routes/books.py`:

* Python `str` values are embedded as `List Char` (`Str` below).
* The HTML page is embedded as the projection that the scraper queries out
  of it with BeautifulSoup (`Page` below): each field is the result of one
  `soup.find`/regex query; the HTML parser and the regex engine themselves
  are external collaborators.
* Network fetches, image decoding and file writes are embedded as explicit
  outcome parameters (`Except` values / oracle functions).
* Python exceptions are embedded as the `PyExc` error type carried in
  `Except`; MongoDB collections are embedded as in-memory lists with
  first-match `find_one` / `update_one` / `delete_one` semantics.
-/

set_option autoImplicit false

namespace ACM

/-- Embedded Python strings: a `str` is its list of characters. -/
abbrev Str := List Char

/-- Literal helper turning a Lean string literal into an embedded `Str`. -/
def str (s : String) : Str := s.data

/-- Characters `str.split()` and `str.strip()` treat as whitespace
(the ASCII whitespace subset is sufficient for the embedded pages). -/
def isPySpace (c : Char) : Bool :=
  c = ' ' ∨ c = '\t' ∨ c = '\n' ∨ c = '\r' ∨ c = '\x0b' ∨ c = '\x0c'

/-- Worker for `pySplit`; `acc` holds the current (reversed) token. -/
def splitAux : List Char → List Char → List Str
  | [], acc => if acc.isEmpty then [] else [acc.reverse]
  | c :: cs, acc =>
      if isPySpace c then
        if acc.isEmpty then splitAux cs [] else acc.reverse :: splitAux cs []
      else
        splitAux cs (c :: acc)

/-- Python `s.split()`: split on whitespace runs, dropping empty tokens. -/
def pySplit (s : Str) : List Str := splitAux s []

/-- Python `s.strip()`. -/
def pyStrip (s : Str) : Str :=
  ((s.dropWhile isPySpace).reverse.dropWhile isPySpace).reverse

/-- Python `s.zfill(w)`: left-pad with `'0'` up to width `w`, keeping a
leading sign in front of the padding. -/
def zfill (w : Nat) (s : Str) : Str :=
  if w ≤ s.length then s
  else
    match s with
    | [] => List.replicate w '0'
    | c :: rest =>
        if c = '-' ∨ c = '+' then
          c :: (List.replicate (w - s.length) '0' ++ rest)
        else
          List.replicate (w - s.length) '0' ++ (c :: rest)

/-- Python `s.startswith(p)`. -/
def startsWith : Str → Str → Bool
  | _, [] => true
  | [], _ :: _ => false
  | c :: cs, p :: ps => c = p ∧ startsWith cs ps

/-- Decimal digits of a natural number (Python `str(n)` for `n : int ≥ 0`). -/
def natToStr (n : Nat) : Str := Nat.toDigits 10 n

/-- Python `str(x)` for an `Optional[int]` value (`None` prints as `"None"`). -/
def optNatToStr : Option Nat → Str
  | none => str "None"
  | some n => natToStr n

/-- Python `", ".join(xs)`. -/
def joinComma : List Str → Str
  | [] => []
  | [s] => s
  | s :: rest => s ++ str ", " ++ joinComma rest

/-- Embedded Python exceptions, as raised along the scraping/import path. -/
inductive PyExc where
  /-- `requests.RequestException` (network or non-2xx HTTP failure). -/
  | requestException (msg : Str)
  /-- `ValueError`. -/
  | valueError (msg : Str)
  /-- `KeyError`, carrying the missing key. -/
  | keyError (key : Str)
  /-- `IndexError`. -/
  | indexError (msg : Str)
  /-- `AttributeError` (e.g. `.text` on a missing element). -/
  | attributeError (msg : Str)
deriving DecidableEq

/-- Python `str(e)` of an exception (`KeyError` renders the repr of its key,
with quotes). -/
def excStr : PyExc → Str
  | .requestException m => m
  | .valueError m => m
  | .keyError k => '\'' :: (k ++ ['\''])
  | .indexError m => m
  | .attributeError m => m

/-- Python `int(s)`: strip whitespace, optional sign, at least one digit;
raises `ValueError` otherwise. -/
def pyInt (s : Str) : Except PyExc Int :=
  let t := pyStrip s
  let (neg, digits) :=
    match t with
    | '-' :: rest => (true, rest)
    | '+' :: rest => (false, rest)
    | _ => (false, t)
  if digits ≠ [] ∧ digits.all Char.isDigit then
    let n : Nat := digits.foldl (fun acc c => acc * 10 + (c.toNat - 48)) 0
    .ok (if neg then -(n : Int) else (n : Int))
  else
    .error (.valueError (str "invalid literal for int with base 10"))

/-- Association-list update with Python-`dict` semantics: assigning to an
existing key overwrites it in place, otherwise the pair is appended. -/
def dictInsert (d : List (Str × Str)) (k v : Str) : List (Str × Str) :=
  match d with
  | [] => [(k, v)]
  | (k0, v0) :: rest =>
      if k0 = k then (k0, v) :: rest else (k0, v0) :: dictInsert rest k v

/-- Python `d.get(k, dflt)`. -/
def dGet (d : List (Str × Str)) (k : Str) (dflt : Str) : Str :=
  match d with
  | [] => dflt
  | (k0, v0) :: rest => if k0 = k then v0 else dGet rest k dflt

example : pySplit (str "12 mars  2015") = [str "12", str "mars", str "2015"] := by decide
example : zfill 2 (str "5") = str "05" := by decide
example : pyInt (str " 48 ") = .ok 48 := by rfl

/-! ### MD5 (`hashlib.md5`), as used for the cover-image filename

`_download_cover` names the stored file
`{isbn}_{hashlib.md5(url.encode()).hexdigest()[:8]}.jpg`.  The hash is
embedded as the standard MD5 algorithm (RFC 1321) over the UTF-8 bytes of
the URL, on `Nat` with explicit reduction modulo `2 ^ 32`. -/

/-- `2 ^ 32`, the word modulus of MD5. -/
def mask32 : Nat := 4294967296

/-- Rotate a 32-bit word left by `s` bits. -/
def rotl32 (x s : Nat) : Nat :=
  ((x <<< s) ||| (x >>> (32 - s))) % mask32

/-- MD5 round function F. -/
def mdF (x y z : Nat) : Nat := (x &&& y) ||| ((x ^^^ 4294967295) &&& z)

/-- MD5 round function G. -/
def mdG (x y z : Nat) : Nat := (z &&& x) ||| ((z ^^^ 4294967295) &&& y)

/-- The 64 sine-derived additive constants of MD5 (RFC 1321, `T[i+1]`). -/
def mdK : List Nat :=
  [0xd76aa478, 0xe8c7b756, 0x242070db, 0xc1bdceee,
   0xf57c0faf, 0x4787c62a, 0xa8304613, 0xfd469501,
   0x698098d8, 0x8b44f7af, 0xffff5bb1, 0x895cd7be,
   0x6b901122, 0xfd987193, 0xa679438e, 0x49b40821,
   0xf61e2562, 0xc040b340, 0x265e5a51, 0xe9b6c7aa,
   0xd62f105d, 0x02441453, 0xd8a1e681, 0xe7d3fbc8,
   0x21e1cde6, 0xc33707d6, 0xf4d50d87, 0x455a14ed,
   0xa9e3e905, 0xfcefa3f8, 0x676f02d9, 0x8d2a4c8a,
   0xfffa3942, 0x8771f681, 0x6d9d6122, 0xfde5380c,
   0xa4beea44, 0x4bdecfa9, 0xf6bb4b60, 0xbebfbc70,
   0x289b7ec6, 0xeaa127fa, 0xd4ef3085, 0x04881d05,
   0xd9d4d039, 0xe6db99e5, 0x1fa27cf8, 0xc4ac5665,
   0xf4292244, 0x432aff97, 0xab9423a7, 0xfc93a039,
   0x655b59c3, 0x8f0ccc92, 0xffeff47d, 0x85845dd1,
   0x6fa87e4f, 0xfe2ce6e0, 0xa3014314, 0x4e0811a1,
   0xf7537e82, 0xbd3af235, 0x2ad7d2bb, 0xeb86d391]

/-- The 64 per-round left-rotation amounts of MD5. -/
def mdS : List Nat :=
  [7, 12, 17, 22, 7, 12, 17, 22, 7, 12, 17, 22, 7, 12, 17, 22,
   5, 9, 14, 20, 5, 9, 14, 20, 5, 9, 14, 20, 5, 9, 14, 20,
   4, 11, 16, 23, 4, 11, 16, 23, 4, 11, 16, 23, 4, 11, 16, 23,
   6, 10, 15, 21, 6, 10, 15, 21, 6, 10, 15, 21, 6, 10, 15, 21]

/-- Message-word index selected in round `i`. -/
def mdIdx (i : Nat) : Nat :=
  if i < 16 then i
  else if i < 32 then (5 * i + 1) % 16
  else if i < 48 then (3 * i + 5) % 16
  else (7 * i) % 16

/-- Nonlinear mixing function used in round `i`. -/
def mdFun (i b c d : Nat) : Nat :=
  if i < 16 then mdF b c d
  else if i < 32 then mdG b c d
  else if i < 48 then b ^^^ c ^^^ d
  else c ^^^ (b ||| (d ^^^ 4294967295))

/-- One MD5 round over the 16-word block `M`. -/
def md5Round (M : List Nat) (st : Nat × Nat × Nat × Nat) (i : Nat) :
    Nat × Nat × Nat × Nat :=
  let (a, b, c, d) := st
  let f := (mdFun i b c d + a + mdK.getD i 0 + M.getD (mdIdx i) 0) % mask32
  (d, (b + rotl32 f (mdS.getD i 0)) % mask32, b, c)

/-- Process one 16-word block, adding the round output into the state. -/
def md5Block (st : Nat × Nat × Nat × Nat) (M : List Nat) :
    Nat × Nat × Nat × Nat :=
  let (a0, b0, c0, d0) := st
  let (a, b, c, d) := (List.range 64).foldl (md5Round M) st
  ((a0 + a) % mask32, (b0 + b) % mask32, (c0 + c) % mask32, (d0 + d) % mask32)

/-- Little-endian 32-bit words of a byte list (groups of 4 bytes). -/
def leWords : List Nat → List Nat
  | b0 :: b1 :: b2 :: b3 :: rest =>
      (b0 + 256 * b1 + 65536 * b2 + 16777216 * b3) :: leWords rest
  | _ => []

/-- `k` little-endian bytes of `n`. -/
def leBytes (k n : Nat) : List Nat :=
  (List.range k).map (fun i => n / 256 ^ i % 256)

/-- MD5 padding: `0x80`, zeros to 56 mod 64, then the 64-bit bit length. -/
def md5Pad (msg : List Nat) : List Nat :=
  let L := msg.length
  let padLen := (119 - L % 64) % 64
  msg ++ 0x80 :: (List.replicate padLen 0 ++ leBytes 8 ((8 * L) % 2 ^ 64))

/-- The 16-byte MD5 digest of a byte message. -/
def md5Digest (msg : List Nat) : List Nat :=
  let ws := leWords (md5Pad msg)
  let init : Nat × Nat × Nat × Nat :=
    (0x67452301, 0xefcdab89, 0x98badcfe, 0x10325476)
  let (a, b, c, d) :=
    (List.range (ws.length / 16)).foldl
      (fun st i => md5Block st ((ws.drop (16 * i)).take 16)) init
  leBytes 4 a ++ leBytes 4 b ++ leBytes 4 c ++ leBytes 4 d

/-- Lowercase hex digit. -/
def hexDigit (n : Nat) : Char := (str "0123456789abcdef").getD n '0'

/-- Two lowercase hex characters of a byte. -/
def byteHex (b : Nat) : Str := [hexDigit (b / 16), hexDigit (b % 16)]

/-- UTF-8 bytes of one character (Python `str.encode()`). -/
def utf8Char (c : Char) : List Nat :=
  let n := c.toNat
  if n < 0x80 then [n]
  else if n < 0x800 then [0xC0 + n / 64, 0x80 + n % 64]
  else if n < 0x10000 then
    [0xE0 + n / 4096, 0x80 + n / 64 % 64, 0x80 + n % 64]
  else
    [0xF0 + n / 262144, 0x80 + n / 4096 % 64, 0x80 + n / 64 % 64,
     0x80 + n % 64]

/-- UTF-8 bytes of an embedded string. -/
def utf8Encode (s : Str) : List Nat := (s.map utf8Char).flatten

/-- `hashlib.md5(s.encode()).hexdigest()`. -/
def md5hex (s : Str) : Str := (md5Digest (utf8Encode s)).map byteHex |>.flatten

example : md5hex (str "") = str "d41d8cd98f00b204e9800998ecf8427e" := by rfl
example : md5hex (str "abc") = str "900150983cd24fb0d6963f7d28e17f72" := by rfl

/-! ### `BubbleBDScraper` (`backend/scrapers/bubblebd/albums.py`) -/

/-- The French month-name table of `_parse_date` (`months_fr`). -/
def months_fr : List (Str × Str) :=
  [(str "janv.", str "01"), (str "févr.", str "02"), (str "mars", str "03"),
   (str "avr.", str "04"), (str "mai", str "05"), (str "juin", str "06"),
   (str "juil.", str "07"), (str "août", str "08"), (str "sept.", str "09"),
   (str "oct.", str "10"), (str "nov.", str "11"), (str "déc.", str "12")]

/-- Dictionary lookup returning `none` where Python raises `KeyError`. -/
def monthLookup (m : Str) : Option Str :=
  months_fr.foldr (fun kv acc => if kv.1 = m then some kv.2 else acc) none

/-- `BubbleBDScraper._parse_date`: split the French date on whitespace; the
day is `parts[0].zfill(2)`, the month is `months_fr[parts[1]]` (`KeyError`
when the name is unknown), the year is `parts[2]` (`IndexError` when fewer
than three tokens are present); result `f"{year}-{month}-{day}"`.  The
exceptions escape `_parse_date` itself and are converted to `ValueError`
by `scrape_album`'s blanket handler. -/
def parse_date (date_str : Str) : Except PyExc Str :=
  match pySplit date_str with
  | [] => .error (.indexError (str "list index out of range"))
  | [_] => .error (.indexError (str "list index out of range"))
  | [_, m] =>
      match monthLookup m with
      | none => .error (.keyError m)
      | some _ => .error (.indexError (str "list index out of range"))
  | d :: m :: y :: _ =>
      match monthLookup m with
      | none => .error (.keyError m)
      | some code => .ok (y ++ '-' :: (code ++ '-' :: zfill 2 d))

/-- The projection of a catalog page that `scrape_album` queries via
BeautifulSoup.  Each field is the outcome of one `soup.find`/regex query
(the HTML parser and the `re` module are external collaborators):

* `h1`: text of the first `h1` element, `none` when absent;
* `charRows`: the `(td[0].text, td[1].text)` rows of the
  `table.characteristics`, `none` when the table is absent;
* `authorsLinks` / `themesLinks`: texts of the anchors in the `td`
  following the `Auteurs` / `Thèmes` label, `none` when the label is
  absent;
* `seriesTitleH1`: text of `h1.series-title`, `none` when absent;
* `tomeTotalMatch`: the captured `Y` of the first `Tome X/Y` text match;
* `tomeNumberMatch`: the captured `N` of the first `Tome N` text match;
* `synopsisDiv`: text of the `div` following the `Résumé` heading;
* `coverSrc`: the `src` attribute of `img.cover`, `none` when the element
  or the attribute is absent. -/
structure Page where
  h1 : Option Str
  charRows : Option (List (Str × Str))
  authorsLinks : Option (List Str)
  themesLinks : Option (List Str)
  seriesTitleH1 : Option Str
  tomeTotalMatch : Option Nat
  tomeNumberMatch : Option Nat
  synopsisDiv : Option Str
  coverSrc : Option Str
deriving DecidableEq

/-- The `BubbleBDAlbum` dataclass. -/
structure BubbleBDAlbum where
  title : Str
  isbn : Str
  authors : List Str
  publisher : Str
  publication_date : Str
  pages : Int
  genre : List Str
  language : Str
  series_number : Option Nat
  status : Str
  notes : Str
  cover_url : Str
  cover_path : Option Str
  synopsis : Str
  series_title : Str
  total_volumes : Option Nat
deriving DecidableEq, Inhabited

/-- `self.base_url`. -/
def base_url : Str := str "https://www.bubblebd.com"

/-- The try-block body of `BubbleBDScraper._download_cover`.  The image
fetch, the PIL decode and the JPEG save are external effects, embedded as
the oracles `fetchImg`, `decodeImg` and `saveImg`; `coversDir` stands for
`self.covers_dir`.  On success the pair `(relative_path, absolute_path)`
is produced. -/
def download_cover_body (url isbn : Str) (coversDir : Str)
    (fetchImg : Except Str (List Nat))
    (decodeImg : List Nat → Except Str Unit)
    (saveImg : Str → Except Str Unit) : Except Str (Str × Str) := do
  let content ← fetchImg
  let url_hash := (md5hex url).take 8
  let filename := isbn ++ '_' :: (url_hash ++ str ".jpg")
  let relative_path := str "static/covers/books/" ++ filename
  let absolute_path := coversDir ++ '/' :: filename
  let _ ← decodeImg content
  let _ ← saveImg absolute_path
  pure (relative_path, absolute_path)

/-- `BubbleBDScraper._download_cover`: run the body and swallow every
exception into `(None, None)`. -/
def download_cover (url isbn : Str) (coversDir : Str)
    (fetchImg : Except Str (List Nat))
    (decodeImg : List Nat → Except Str Unit)
    (saveImg : Str → Except Str Unit) : Option Str × Option Str :=
  match download_cover_body url isbn coversDir fetchImg decodeImg saveImg with
  | .ok (rel, abs) => (some rel, some abs)
  | .error _ => (none, none)

/-- The filename `_download_cover` stores the image under:
`{isbn}_{md5(url)[:8]}.jpg`. -/
def cover_filename (isbn url : Str) : Str :=
  isbn ++ '_' :: ((md5hex url).take 8 ++ str ".jpg")

/-- `_extract_series_info`: series title from `h1.series-title` (empty
title and no total when absent), total volumes from the `Tome X/Y`
pattern. -/
def extract_series_info (page : Page) : Str × Option Nat :=
  match page.seriesTitleH1 with
  | none => ([], none)
  | some t => (pyStrip t, page.tomeTotalMatch)

/-- `_extract_series_number`: volume number from the `Tome N` pattern. -/
def extract_series_number (page : Page) : Option Nat :=
  page.tomeNumberMatch

/-- The `notes` f-string of `scrape_album`:
`Tome {series_number}/{total_volumes if total_volumes else '?'} de la série
{series_title}` (`if total_volumes` is Python truthiness, so `0` and `None`
both print `?`). -/
def albumNotes (series_number : Option Nat) (total_volumes : Option Nat)
    (series_title : Str) : Str :=
  str "Tome " ++ optNatToStr series_number ++ '/' ::
    ((match total_volumes with
      | some t => if t ≠ 0 then natToStr t else str "?"
      | none => str "?") ++ (str " de la série " ++ series_title))

/-- The try-block body of `scrape_album` after the page fetch, i.e. the
pure field extraction.  `dl` embeds `self._download_cover` (already
applied to its oracles).  Any `PyExc` escaping this body is wrapped by
`scrape_album` into `ValueError("Could not parse album information: …")`. -/
def scrapeBody (page : Page) (dl : Str → Str → Option Str × Option Str)
    (download_cover : Bool) : Except PyExc BubbleBDAlbum := do
  let title ←
    match page.h1 with
    | none =>
        .error (.attributeError
          (str "NoneType object has no attribute text"))
    | some t => pure (pyStrip t)
  let char_data :=
    match page.charRows with
    | none => []
    | some rows =>
        rows.foldl (fun d kv => dictInsert d (pyStrip kv.1) (pyStrip kv.2)) []
  let authors :=
    match page.authorsLinks with
    | none => []
    | some links => links.map pyStrip
  let isbn := dGet char_data (str "ISBN/EAN") []
  let publisher := dGet char_data (str "Editeur") (str "Delcourt")
  let publication_date ← parse_date (dGet char_data (str "Date de parution") [])
  let pages ← pyInt (dGet char_data (str "Nombre de pages") (str "0"))
  let genres :=
    match page.themesLinks with
    | none => []
    | some links => links.map pyStrip
  let (series_title, total_volumes) := extract_series_info page
  let series_number := extract_series_number page
  let synopsis :=
    match page.synopsisDiv with
    | none => []
    | some t => pyStrip t
  let (cover_url, cover_path) :=
    match page.coverSrc with
    | none => ([], none)
    | some src =>
        let u := if startsWith src (str "http") then src else base_url ++ src
        let p :=
          if download_cover ∧ isbn ≠ [] then
            match (dl u isbn).1 with
            | some rel => if rel ≠ [] then some rel else none
            | none => none
          else none
        (u, p)
  pure
    { title := title
      isbn := isbn
      authors := authors
      publisher := publisher
      publication_date := publication_date
      pages := pages
      genre := genres
      language := str "fr"
      series_number := series_number
      status := str "wanted"
      notes := albumNotes series_number total_volumes series_title
      cover_url := cover_url
      cover_path := cover_path
      synopsis := synopsis
      series_title := series_title
      total_volumes := total_volumes }

/-- `BubbleBDScraper.scrape_album`.  `fetched` is the outcome of
`requests.get(url)` plus `raise_for_status` and HTML parsing: a `Page` on
success, the exception message on failure.  A fetch failure re-raises
`requests.RequestException` unchanged; any other exception `e` in the body
is converted to `ValueError(f"Could not parse album information: {e}")`. -/
def scrape_album (fetched : Except Str Page)
    (dl : Str → Str → Option Str × Option Str)
    (download_cover : Bool) : Except PyExc BubbleBDAlbum :=
  match fetched with
  | .error m => .error (.requestException m)
  | .ok page =>
      match scrapeBody page dl download_cover with
      | .ok album => .ok album
      | .error e =>
          .error (.valueError
            (str "Could not parse album information: " ++ excStr e))

/-! ### Document-store model (`motor` / MongoDB collections)

Collections are lists of documents in insertion order; `find_one` returns
the first match, `update_one` rewrites the first match, `delete_one`
removes the first match.  `ObjectId` generation is modelled by the
`nextSeriesId` / `nextBookId` counters (an `ObjectId` is always truthy, so
the counters start anywhere; freshness is a hypothesis where needed). -/

/-- A document of the `book_series` collection. -/
structure SeriesDoc where
  _id : Nat
  title : Str
  total_books : Option Nat
  current_book : Option Nat
  genre : List Str
  language : Str
  status : Str
  notes : Str
  created_by : Str
  updated_by : Str
  created_at : Nat
  updated_at : Nat
deriving DecidableEq

/-- A document of the `books` collection. -/
structure BookDoc where
  _id : Nat
  title : Str
  isbn : Str
  author : Str
  publisher : Str
  publication_date : Str
  pages : Int
  genre : List Str
  language : Str
  series_id : Option Nat
  series_number : Option Nat
  status : Str
  notes : Str
  cover_url : Str
  synopsis : Str
  created_by : Str
  updated_by : Str
  created_at : Nat
  updated_at : Nat
deriving DecidableEq, Inhabited

/-- The two collections the import/delete path touches, plus id counters. -/
structure DBState where
  series : List SeriesDoc
  books : List BookDoc
  nextSeriesId : Nat
  nextBookId : Nat
deriving DecidableEq

/-- Rewrite the first element satisfying `p` (MongoDB `update_one`). -/
def updateFirst {α : Type} (p : α → Bool) (f : α → α) : List α → List α
  | [] => []
  | x :: xs => if p x then f x :: xs else x :: updateFirst p f xs

/-- Remove the first element satisfying `p` (MongoDB `delete_one`). -/
def removeFirst {α : Type} (p : α → Bool) : List α → List α
  | [] => []
  | x :: xs => if p x then xs else x :: removeFirst p xs

/-- `db.book_series.find_one({"title": t})`. -/
def findSeriesByTitle (st : DBState) (t : Str) : Option SeriesDoc :=
  st.series.find? (fun s => s.title == t)

/-- `db.book_series.find_one({"_id": sid})`. -/
def findSeriesById (st : DBState) (sid : Nat) : Option SeriesDoc :=
  st.series.find? (fun s => s._id == sid)

/-- `db.books.find_one({"_id": bid})`. -/
def findBookById (st : DBState) (bid : Nat) : Option BookDoc :=
  st.books.find? (fun b => b._id == bid)

/-- Ordering MongoDB applies to `series_number` values when sorting
descending: a missing/`None` value sorts below every number. -/
def optNatLt : Option Nat → Option Nat → Bool
  | none, some _ => true
  | some a, some b => a < b
  | _, none => false

/-- `db.books.find_one(filter, sort=[("series_number", -1)])` over an
already-filtered list: the first document holding the maximal
`series_number`. -/
def findMaxBySeriesNumber (l : List BookDoc) : Option BookDoc :=
  l.foldl
    (fun acc b =>
      match acc with
      | none => some b
      | some m => if optNatLt m.series_number b.series_number then some b else acc)
    none

/-- `datetime.strptime(s, "%Y-%m-%d").date()`: three dash-separated digit
groups (at most 4/2/2 digits), month `1..12`, day valid for the month;
the result models the `date` object by its zero-padded ISO rendering.
Raises `ValueError` on any mismatch. -/
def pyStrptimeISO (s : Str) : Except PyExc Str :=
  let parts := splitOnDash s
  match parts with
  | [y, m, d] =>
      if y ≠ [] ∧ y.all Char.isDigit ∧ y.length ≤ 4 ∧
         m ≠ [] ∧ m.all Char.isDigit ∧ m.length ≤ 2 ∧
         d ≠ [] ∧ d.all Char.isDigit ∧ d.length ≤ 2 then
        let yn := digitsToNat y
        let mn := digitsToNat m
        let dn := digitsToNat d
        if 1 ≤ mn ∧ mn ≤ 12 ∧ 1 ≤ dn ∧ dn ≤ daysInMonth yn mn then
          .ok (zfill 4 (natToStr yn) ++ '-' ::
            (zfill 2 (natToStr mn) ++ '-' :: zfill 2 (natToStr dn)))
        else .error (.valueError (str "day is out of range for month"))
      else
        .error (.valueError
          (str "time data does not match format Y-m-d"))
  | _ =>
      .error (.valueError
        (str "time data does not match format Y-m-d"))
where
  /-- Split on `'-'`, keeping empty pieces. -/
  splitOnDash (t : Str) : List Str :=
    t.foldr
      (fun c acc =>
        match acc with
        | [] => if c = '-' then [[], []] else [[c]]
        | piece :: rest => if c = '-' then [] :: (piece :: rest) else (c :: piece) :: rest)
      [[]]
  /-- Numeric value of a digit string. -/
  digitsToNat (t : Str) : Nat :=
    t.foldl (fun acc c => acc * 10 + (c.toNat - 48)) 0
  /-- Gregorian month length. -/
  daysInMonth (y m : Nat) : Nat :=
    if m = 2 then
      if y % 4 = 0 ∧ (y % 100 ≠ 0 ∨ y % 400 = 0) then 29 else 28
    else if m = 4 ∨ m = 6 ∨ m = 9 ∨ m = 11 then 30
    else 31

example : pyStrptimeISO (str "2015-03-12") = .ok (str "2015-03-12") := by rfl
example : pyStrptimeISO (str "2015-02-30") =
    .error (.valueError (str "day is out of range for month")) := by rfl

/-! ### `book_service.add_scraped_album` and `book_service.delete_book` -/

/-- The new-series document `add_scraped_album` inserts when no series of
the scraped title exists. -/
def newSeriesDoc (album : BubbleBDAlbum) (sid : Nat) (user_id : Str)
    (now : Nat) : SeriesDoc :=
  { _id := sid
    title := album.series_title
    total_books := album.total_volumes
    current_book := album.series_number
    genre := album.genre
    language := album.language
    status := str "ongoing"
    notes := str "Series imported from BubbleBD"
    created_by := user_id
    updated_by := user_id
    created_at := now
    updated_at := now }

/-- The `$set` document of the series update: `total_books`, `updated_by`
and `updated_at` only. -/
def setTotalBooks (t : Nat) (user_id : Str) (now : Nat)
    (se : SeriesDoc) : SeriesDoc :=
  { se with total_books := some t, updated_by := user_id, updated_at := now }

/-- The series find-or-create step of `add_scraped_album`: skipped for an
empty (falsy) `series_title`; otherwise insert a new series, or — when
the scraped `total_volumes` is truthy and differs from the stored
`total_books` — `$set` the found series' `total_books`, `updated_by` and
`updated_at`.  Returns the new store state and the resolved `series_id`. -/
def seriesPhase (st : DBState) (album : BubbleBDAlbum) (user_id : Str)
    (now : Nat) : DBState × Option Nat :=
  if album.series_title = [] then (st, none)
  else
    match findSeriesByTitle st album.series_title with
    | none =>
        ({ st with
            series := st.series ++ [newSeriesDoc album st.nextSeriesId user_id now]
            nextSeriesId := st.nextSeriesId + 1 },
          some st.nextSeriesId)
    | some s =>
        let st' :=
          match album.total_volumes with
          | some t =>
              if t ≠ 0 ∧ some t ≠ s.total_books then
                { st with
                    series :=
                      updateFirst (fun se => se._id == s._id)
                        (setTotalBooks t user_id now) st.series }
              else st
          | none => st
        (st', some s._id)

/-- The `book_data` document `add_scraped_album` inserts. -/
def mkBookDoc (album : BubbleBDAlbum) (pubDate : Str) (seriesId : Option Nat)
    (bid : Nat) (user_id : Str) (now : Nat) : BookDoc :=
  { _id := bid
    title := album.title
    isbn := album.isbn
    author := joinComma album.authors
    publisher := album.publisher
    publication_date := pubDate
    pages := album.pages
    genre := album.genre
    language := album.language
    series_id := seriesId
    series_number := album.series_number
    status := album.status
    notes := album.notes
    cover_url := album.cover_url
    synopsis := album.synopsis
    created_by := user_id
    updated_by := user_id
    created_at := now
    updated_at := now }

/-- The try-block body of `add_scraped_album`, starting from the scrape
outcome (`scraper.scrape_album` is the first statement of the block, so
its exceptions are part of the body).  The series find-or-create runs
first; `datetime.strptime` re-parses the album's ISO date while the book
document is built; the book is inserted and re-read by id. -/
def addScrapedBody (st : DBState) (scrape : Except PyExc BubbleBDAlbum)
    (user_id : Str) (now : Nat) : Except PyExc (DBState × BookDoc) := do
  let album ← scrape
  let st1 := (seriesPhase st album user_id now).1
  let seriesId := (seriesPhase st album user_id now).2
  let pubDate ← pyStrptimeISO album.publication_date
  let book := mkBookDoc album pubDate seriesId st1.nextBookId user_id now
  let st2 :=
    { st1 with
        books := st1.books ++ [book]
        nextBookId := st1.nextBookId + 1 }
  match findBookById st2 book._id with
  | some fetched => pure (st2, fetched)
  | none => .error (.valueError (str "Failed to insert book into database"))

/-- `book_service.add_scraped_album`: run the body; any exception `e` is
caught and re-raised as
`ValueError(f"Failed to add scraped album: {str(e)}")`. -/
def add_scraped_album (st : DBState) (scrape : Except PyExc BubbleBDAlbum)
    (user_id : Str) (now : Nat) : Except PyExc (DBState × BookDoc) :=
  match addScrapedBody st scrape user_id now with
  | .ok r => .ok r
  | .error e =>
      .error (.valueError (str "Failed to add scraped album: " ++ excStr e))

/-- The try-block body of `delete_book`: look the book up (`ValueError`
when absent), delete it, then the series cascade: delete the series when
no book references it any more; otherwise, when the series'
`current_book` equals the deleted book's `series_number`, point it at the
highest remaining `series_number`. -/
def deleteBookBody (st : DBState) (book_id : Nat) (user_id : Str)
    (now : Nat) : Except PyExc (DBState × Bool) := do
  let book ←
    match findBookById st book_id with
    | none => .error (.valueError (str "Book not found"))
    | some b => pure b
  let st1 := { st with books := removeFirst (fun b => b._id == book_id) st.books }
  match book.series_id with
  | none => pure (st1, true)
  | some sid =>
      let remaining :=
        (st1.books.filter (fun b => b.series_id == some sid)).length
      if remaining = 0 then
        pure
          ({ st1 with
              series := removeFirst (fun s => s._id == sid) st1.series },
            true)
      else
        match findSeriesById st1 sid with
        | some s =>
            if s.current_book == book.series_number then
              match
                findMaxBySeriesNumber
                  (st1.books.filter (fun b => b.series_id == some sid))
              with
              | some next_book =>
                  pure
                    ({ st1 with
                        series :=
                          updateFirst (fun se => se._id == sid)
                            (fun se =>
                              { se with
                                  current_book := next_book.series_number
                                  updated_by := user_id
                                  updated_at := now })
                            st1.series },
                      true)
              | none => pure (st1, true)
            else pure (st1, true)
        | none => pure (st1, true)

/-- `book_service.delete_book`: run the body; any exception `e` is caught
and re-raised as `ValueError(f"Failed to delete book: {str(e)}")`. -/
def delete_book (st : DBState) (book_id : Nat) (user_id : Str)
    (now : Nat) : Except PyExc (DBState × Bool) :=
  match deleteBookBody st book_id user_id now with
  | .ok r => .ok r
  | .error e =>
      .error (.valueError (str "Failed to delete book: " ++ excStr e))

/-! ### HTTP layer (`backend/routes/books.py`) -/

/-- Responses of `POST /books/scrape` as the route handler builds them. -/
inductive HTTPResult where
  /-- `200` with the persisted book document. -/
  | success (book : BookDoc)
  /-- `HTTPException` with status `400` (`except ValueError`). -/
  | badRequest (detail : Str)
  /-- `HTTPException` with status `500` (`except Exception`). -/
  | serverError (detail : Str)
deriving DecidableEq

/-- `scrape_and_add_book`: return the service result, mapping `ValueError`
to a 400 with `str(e)` as detail and any other exception to a 500. -/
def scrape_and_add_book (res : Except PyExc (DBState × BookDoc)) :
    HTTPResult :=
  match res with
  | .ok (_, book) => .success book
  | .error (.valueError m) => .badRequest m
  | .error e => .serverError (str "Failed to add book: " ++ excStr e)

/-! ### Helper lemmas -/

/-- Consuming a whitespace-free chunk moves it into the accumulator. -/
lemma splitAux_chunk (t : Str) :
    ∀ (rest acc : Str), (∀ c ∈ t, isPySpace c = false) →
      splitAux (t ++ rest) acc = splitAux rest (t.reverse ++ acc) := by
  induction t with
  | nil => intro rest acc _; simp
  | cons c t' ih =>
      intro rest acc h
      have hc : isPySpace c = false := h c (List.mem_cons_self c t')
      have ht' : ∀ x ∈ t', isPySpace x = false := fun x hx =>
        h x (List.mem_cons_of_mem c hx)
      simp [splitAux, hc, ih rest (c :: acc) ht', List.append_assoc]

/-- A space flushes a non-empty accumulator as one token. -/
lemma splitAux_space (rest acc : Str) :
    splitAux (' ' :: rest) acc =
      if acc.isEmpty then splitAux rest [] else acc.reverse :: splitAux rest [] := by
  simp [splitAux, isPySpace]

/-- `pySplit` of `"<d> <m> <y>"` with whitespace-free non-empty tokens. -/
lemma pySplit_three (d m y : Str) (hd : d ≠ []) (hm : m ≠ []) (hy : y ≠ [])
    (hds : ∀ c ∈ d, isPySpace c = false)
    (hms : ∀ c ∈ m, isPySpace c = false)
    (hys : ∀ c ∈ y, isPySpace c = false) :
    pySplit (d ++ ' ' :: (m ++ ' ' :: y)) = [d, m, y] := by
  unfold pySplit
  rw [splitAux_chunk d (' ' :: (m ++ ' ' :: y)) [] hds]
  rw [List.append_nil, splitAux_space]
  have hdrev : (d.reverse.isEmpty) = false := by
    cases d with
    | nil => exact absurd rfl hd
    | cons a l => simp
  rw [hdrev]
  simp only [Bool.false_eq_true, if_false, List.reverse_reverse]
  rw [splitAux_chunk m (' ' :: y) [] hms, List.append_nil, splitAux_space]
  have hmrev : (m.reverse.isEmpty) = false := by
    cases m with
    | nil => exact absurd rfl hm
    | cons a l => simp
  rw [hmrev]
  simp only [Bool.false_eq_true, if_false, List.reverse_reverse]
  have : splitAux y [] = [y] := by
    have := splitAux_chunk y [] [] hys
    rw [List.append_nil, List.append_nil] at this
    rw [this]
    cases y with
    | nil => exact absurd rfl hy
    | cons a l => simp [splitAux]
  rw [this]

/-! ### Claims -/

/-- **C1.** For every date string of the form `day month-name year` whose
abbreviated month name is one of the 12 known French entries,
`_parse_date` returns the ISO `YYYY-MM-DD` equivalent with the day
zero-padded to two digits; for any month name not in the 12-entry table
it raises (`KeyError`, surfaced by `scrape_album` as `ParseError`) rather
than silently defaulting. -/
theorem parse_date_iso_or_keyerror (d m y code : Str)
    (hd : d ≠ []) (hm : m ≠ []) (hy : y ≠ [])
    (hds : ∀ c ∈ d, isPySpace c = false)
    (hms : ∀ c ∈ m, isPySpace c = false)
    (hys : ∀ c ∈ y, isPySpace c = false) :
    (monthLookup m = some code →
      parse_date (d ++ ' ' :: (m ++ ' ' :: y)) =
        .ok (y ++ '-' :: (code ++ '-' :: zfill 2 d))) ∧
    (monthLookup m = none →
      parse_date (d ++ ' ' :: (m ++ ' ' :: y)) = .error (.keyError m)) := by
  have hsp := pySplit_three d m y hd hm hy hds hms hys
  constructor
  · intro hlook
    unfold parse_date
    rw [hsp]
    simp [hlook]
  · intro hlook
    unfold parse_date
    rw [hsp]
    simp [hlook]

/-- Witness for C1: `"12 mars 2015"` parses to `"2015-03-12"` and the
unknown month name `"foo"` raises `KeyError`. -/
theorem parse_date_iso_or_keyerror_witness :
    parse_date (str "12" ++ ' ' :: (str "mars" ++ ' ' :: str "2015")) =
      .ok (str "2015" ++ '-' :: (str "03" ++ '-' :: zfill 2 (str "12"))) ∧
    parse_date (str "12" ++ ' ' :: (str "foo" ++ ' ' :: str "2015")) =
      .error (.keyError (str "foo")) :=
  ⟨(parse_date_iso_or_keyerror (str "12") (str "mars") (str "2015") (str "03")
      (by decide) (by decide) (by decide) (by decide) (by decide) (by decide)).1
      (by decide),
    (parse_date_iso_or_keyerror (str "12") (str "foo") (str "2015") (str "03")
      (by decide) (by decide) (by decide) (by decide) (by decide) (by decide)).2
      (by decide)⟩

/-- A page with a title heading but no characteristics table (all other
queries empty), used to exercise the missing-table path. -/
def pageNoTable : Page :=
  { h1 := some (str "Arctica Tome 1")
    charRows := none
    authorsLinks := none
    themesLinks := none
    seriesTitleH1 := none
    tomeTotalMatch := none
    tomeNumberMatch := none
    synopsisDiv := none
    coverSrc := none }

/-- **C3 (counterexample).** The claim says a page with a title but no
characteristics table extracts successfully with the table-derived fields
defaulted; on the code, `scrape_album` on such a page raises instead
(`char_data.get('Date de parution', '')` defaults to the empty string,
whose `_parse_date` hits `parts[0]` and raises `IndexError`, wrapped into
the `ParseError` `ValueError`), so no record is produced. -/
theorem scrape_album_missing_table_fails :
    scrape_album (.ok pageNoTable) (fun _ _ => (none, none)) true =
      .error (.valueError
        (str "Could not parse album information: list index out of range")) := by
  rfl

/-- **C3 (amended).** For every catalog page that has a title element but
lacks the characteristics table, `extract` does not succeed: the
table-derived ISBN, publisher and page count would default (`''`,
`'Delcourt'`, `0`), but the publication date also defaults to the empty
string, whose parse raises, so the whole extraction fails with
`ParseError` (`ValueError("Could not parse album information: list index
out of range")`). -/
theorem scrape_album_missing_table_raises (page : Page) (t : Str)
    (dl : Str → Str → Option Str × Option Str) (dc : Bool)
    (h1 : page.h1 = some t) (htab : page.charRows = none) :
    scrape_album (.ok page) dl dc =
      .error (.valueError
        (str "Could not parse album information: list index out of range")) := by
  unfold scrape_album scrapeBody
  simp [h1, htab, dGet, parse_date, pySplit, splitAux, excStr,
    Except.instMonad, Except.bind, Except.map, Except.pure]
  decide

/-- Witness for the amended C3 at the concrete table-less page. -/
theorem scrape_album_missing_table_raises_witness :
    scrape_album (.ok pageNoTable) (fun _ _ => (none, none)) true =
      .error (.valueError
        (str "Could not parse album information: list index out of range")) :=
  scrape_album_missing_table_raises pageNoTable (str "Arctica Tome 1")
    (fun _ _ => (none, none)) true rfl rfl

/-- **C6 (counterexample).** The claim asserts that archiving two distinct
URLs under the same key always yields two distinct filenames.  The
filename only keeps the first 8 hex characters (32 bits) of the MD5 of
the URL, so distinct URLs can collide: these two URLs both hash to the
truncation `aef42d7d` and receive the same filename. -/
theorem cover_filename_collision :
    cover_filename (str "9782756") (str "https://img.test/5071.jpg") =
      cover_filename (str "9782756") (str "https://img.test/61882.jpg") ∧
    str "https://img.test/5071.jpg" ≠ str "https://img.test/61882.jpg" :=
  ⟨by rfl, by decide⟩

/-- **C6 (amended).** The archive filename is deterministic of the pair
`(url, key)` — re-archiving the same pair yields the same name — and has
the form `{key}_{first 8 hex chars of md5(url)}.jpg`; archiving two
distinct URLs under the same key yields distinct filenames exactly when
the 8-character truncated hashes differ (truncation to 32 bits admits
collisions, so distinctness is not guaranteed for every pair). -/
theorem cover_filename_shape_and_distinctness (key uA uB : Str)
    (hne : (md5hex uA).take 8 ≠ (md5hex uB).take 8) :
    cover_filename key uA =
      key ++ '_' :: ((md5hex uA).take 8 ++ str ".jpg") ∧
    cover_filename key uA ≠ cover_filename key uB := by
  refine ⟨rfl, fun h => hne ?_⟩
  unfold cover_filename at h
  have h1 := List.append_cancel_left h
  have h2 : (md5hex uA).take 8 ++ str ".jpg" =
      (md5hex uB).take 8 ++ str ".jpg" := by
    exact (List.cons.injEq _ _ _ _).mp h1 |>.2
  exact List.append_cancel_right h2

/-- Witness for the amended C6: the short URLs `"a"` and `"b"` have
different truncated hashes and hence different filenames. -/
theorem cover_filename_shape_and_distinctness_witness :
    cover_filename (str "9782756") (str "a") =
      str "9782756" ++ '_' :: ((md5hex (str "a")).take 8 ++ str ".jpg") ∧
    cover_filename (str "9782756") (str "a") ≠
      cover_filename (str "9782756") (str "b") :=
  cover_filename_shape_and_distinctness (str "9782756") (str "a") (str "b")
    (by decide)

/-- An empty store, used by concrete counterexamples and witnesses. -/
def dbEmpty : DBState :=
  { series := [], books := [], nextSeriesId := 1, nextBookId := 1 }

/-- **C2 (counterexample).** The claim says `add_scraped_album` propagates
extractor errors unchanged.  On the code, its blanket `except Exception`
catches the `requests.RequestException` and re-raises a different
exception: a `ValueError` whose message prefixes
`"Failed to add scraped album: "` to the original text, so what reaches
the HTTP layer is not the original error. -/
theorem extractor_error_wrapped :
    add_scraped_album dbEmpty (.error (.requestException (str "boom")))
        (str "u1") 0 =
      .error (.valueError (str "Failed to add scraped album: boom")) ∧
    PyExc.valueError (str "Failed to add scraped album: boom") ≠
      PyExc.requestException (str "boom") :=
  ⟨by rfl, by decide⟩

/-- **C2 (amended).** Every `FetchError`/`ParseError` raised by the
extractor during an import is caught by `add_scraped_album` and re-raised
as `ValueError("Failed to add scraped album: " + str(original))`, and the
HTTP layer renders that `ValueError` as a 400 response whose detail is
that wrapped message. -/
theorem extractor_errors_rendered_400 (st : DBState) (e : PyExc) (u : Str)
    (now : Nat) :
    add_scraped_album st (.error e) u now =
      .error (.valueError (str "Failed to add scraped album: " ++ excStr e)) ∧
    scrape_and_add_book (add_scraped_album st (.error e) u now) =
      .badRequest (str "Failed to add scraped album: " ++ excStr e) := by
  have h : add_scraped_album st (.error e) u now =
      .error (.valueError (str "Failed to add scraped album: " ++ excStr e)) := by
    simp [add_scraped_album, addScrapedBody, Except.instMonad, Except.bind]
  exact ⟨h, by rw [h]; rfl⟩

/-! Helper lemmas about the success path of the import body. -/

/-- The series phase never touches the `books` collection or the book-id
counter. -/
lemma seriesPhase_books (st : DBState) (album : BubbleBDAlbum) (u : Str)
    (now : Nat) :
    (seriesPhase st album u now).1.books = st.books ∧
    (seriesPhase st album u now).1.nextBookId = st.nextBookId := by
  unfold seriesPhase
  split
  · exact ⟨rfl, rfl⟩
  · cases h : findSeriesByTitle st album.series_title with
    | none => simp
    | some s =>
        simp only
        cases album.total_volumes with
        | none => exact ⟨rfl, rfl⟩
        | some t =>
            simp only
            split <;> exact ⟨rfl, rfl⟩

/-- `add_scraped_album` succeeds exactly when its body does. -/
lemma add_scraped_album_ok_iff (st : DBState)
    (scrape : Except PyExc BubbleBDAlbum) (u : Str) (now : Nat)
    (r : DBState × BookDoc) :
    add_scraped_album st scrape u now = .ok r ↔
      addScrapedBody st scrape u now = .ok r := by
  unfold add_scraped_album
  cases h : addScrapedBody st scrape u now <;> simp

/-- Anatomy of a successful import of an already-scraped album: the book
inserted and returned is `mkBookDoc` over the series phase's output, and
the final state appends it to the books of the series phase's state. -/
lemma addScrapedBody_ok_anatomy (st : DBState) (album : BubbleBDAlbum)
    (u : Str) (now : Nat) (st' : DBState) (b : BookDoc)
    (hfresh : ∀ bk ∈ st.books, bk._id ≠ st.nextBookId)
    (h : addScrapedBody st (.ok album) u now = .ok (st', b)) :
    ∃ pd, pyStrptimeISO album.publication_date = .ok pd ∧
      b = mkBookDoc album pd (seriesPhase st album u now).2 st.nextBookId u now ∧
      st' =
        { (seriesPhase st album u now).1 with
            books := st.books ++ [b]
            nextBookId := st.nextBookId + 1 } := by
  have hbooks := (seriesPhase_books st album u now).1
  have hnext := (seriesPhase_books st album u now).2
  unfold addScrapedBody at h
  simp only [Except.instMonad, Except.bind, Except.pure] at h
  cases hpd : pyStrptimeISO album.publication_date with
  | error e =>
      rw [hpd] at h
      simp at h
  | ok pd =>
      rw [hpd] at h
      simp only at h
      rw [hnext] at h
      unfold findBookById at h
      simp only at h
      rw [hbooks] at h
      rw [List.find?_append] at h
      have hnone : st.books.find?
          (fun bk =>
            bk._id ==
              (mkBookDoc album pd (seriesPhase st album u now).2
                st.nextBookId u now)._id) = none := by
        rw [List.find?_eq_none]
        intro x hx
        simp [mkBookDoc, hfresh x hx]
      rw [hnone] at h
      simp only [List.find?, mkBookDoc, Option.orElse, beq_self_eq_true,
        Option.none_or] at h
      rw [Except.ok.injEq, Prod.mk.injEq] at h
      obtain ⟨hst, hb⟩ := h
      refine ⟨pd, rfl, ?_, ?_⟩
      · rw [← hb]; rfl
      · rw [← hst, ← hb]

/-- The record `scrapeBody` assembles always carries `status = "wanted"`
and `language = "fr"`, and its `cover_path` stays `none` whenever the
archiver yields no relative path. -/
lemma scrapeBody_ok_fields (page : Page)
    (dl : Str → Str → Option Str × Option Str) (dc : Bool)
    (a : BubbleBDAlbum) (h : scrapeBody page dl dc = .ok a) :
    a.status = str "wanted" ∧ a.language = str "fr" ∧
    ((∀ u i, (dl u i).1 = none) → a.cover_path = none) := by
  unfold scrapeBody at h
  cases hh1 : page.h1 with
  | none => rw [hh1] at h; simp [Except.instMonad, Except.bind] at h
  | some t =>
      rw [hh1] at h
      simp only [Except.instMonad, Except.bind, Except.pure] at h
      cases hpd : parse_date (dGet
          (match page.charRows with
            | none => []
            | some rows =>
                rows.foldl
                  (fun d kv => dictInsert d (pyStrip kv.1) (pyStrip kv.2)) [])
          (str "Date de parution") []) with
      | error e => rw [hpd] at h; simp at h
      | ok pd =>
          rw [hpd] at h
          simp only at h
          cases hpi : pyInt (dGet
              (match page.charRows with
                | none => []
                | some rows =>
                    rows.foldl
                      (fun d kv => dictInsert d (pyStrip kv.1) (pyStrip kv.2))
                      [])
              (str "Nombre de pages") (str "0")) with
          | error e => rw [hpi] at h; simp at h
          | ok pg =>
              rw [hpi] at h
              simp only [Except.ok.injEq] at h
              subst h
              refine ⟨rfl, rfl, ?_⟩
              intro hdl
              cases hsrc : page.coverSrc with
              | none => simp [hsrc]
              | some src => simp [hsrc, hdl]

/-- `scrape_album` succeeds exactly when its body does. -/
lemma scrape_album_ok_iff (fetched : Except Str Page)
    (dl : Str → Str → Option Str × Option Str) (dc : Bool)
    (a : BubbleBDAlbum) :
    scrape_album fetched dl dc = .ok a ↔
      ∃ page, fetched = .ok page ∧ scrapeBody page dl dc = .ok a := by
  cases fetched with
  | error m => simp [scrape_album]
  | ok page =>
      unfold scrape_album
      cases h : scrapeBody page dl dc <;> simp [h]

/-- **C10.** Every scraped record produced by `scrape_album` carries the
constant status `"wanted"` regardless of the page content, and a
successful import copies that status verbatim into the inserted (and
returned) book document. -/
theorem scraped_status_always_wanted (fetched : Except Str Page)
    (dl : Str → Str → Option Str × Option Str) (dc : Bool)
    (st : DBState) (u : Str) (now : Nat) (a : BubbleBDAlbum)
    (st' : DBState) (b : BookDoc)
    (hfresh : ∀ bk ∈ st.books, bk._id ≠ st.nextBookId)
    (hscrape : scrape_album fetched dl dc = .ok a)
    (himport :
      add_scraped_album st (scrape_album fetched dl dc) u now = .ok (st', b)) :
    a.status = str "wanted" ∧ b.status = str "wanted" := by
  obtain ⟨page, -, hbody⟩ := (scrape_album_ok_iff fetched dl dc a).mp hscrape
  have hstatus := (scrapeBody_ok_fields page dl dc a hbody).1
  rw [hscrape] at himport
  have hb := (add_scraped_album_ok_iff st (.ok a) u now (st', b)).mp himport
  obtain ⟨pd, -, hbk, -⟩ := addScrapedBody_ok_anatomy st a u now st' b hfresh hb
  refine ⟨hstatus, ?_⟩
  rw [hbk]
  simpa [mkBookDoc] using hstatus

/-- A well-formed page with a characteristics table, author, series and
volume information, used to instantiate import witnesses concretely. -/
def pageOneRow : Page :=
  { h1 := some (str "Arctica Tome 1")
    charRows := some
      [(str "ISBN/EAN", str "9782756"),
       (str "Date de parution", str "12 mars 2015"),
       (str "Nombre de pages", str "48")]
    authorsLinks := some [str "A. Doe"]
    themesLinks := none
    seriesTitleH1 := some (str "Arctica")
    tomeTotalMatch := some 12
    tomeNumberMatch := some 1
    synopsisDiv := none
    coverSrc := none }

/-- The album `scrape_album` extracts from `pageOneRow` (no cover). -/
def albumW : BubbleBDAlbum :=
  match scrape_album (.ok pageOneRow) (fun _ _ => (none, none)) false with
  | .ok a => a
  | .error _ => default

/-- The state/book pair produced by importing `albumW` into the empty
store. -/
def importW : DBState × BookDoc :=
  match add_scraped_album dbEmpty
      (scrape_album (.ok pageOneRow) (fun _ _ => (none, none)) false)
      (str "u1") 7 with
  | .ok r => r
  | .error _ => (dbEmpty, default)

/-- Witness for C10: importing from a concrete one-row page into the empty
store yields status `"wanted"` on both the scraped record and the stored
book. -/
theorem scraped_status_always_wanted_witness :
    albumW.status = str "wanted" ∧ (importW.2).status = str "wanted" :=
  scraped_status_always_wanted (.ok pageOneRow) (fun _ _ => (none, none))
    false dbEmpty (str "u1") 7 albumW importW.1 importW.2
    (by intro bk hbk; simp [dbEmpty] at hbk) (by rfl) (by rfl)

/-- The outcome of a scrape does not depend on the `download_cover` flag
when the archiver yields no relative path: the record is the same as in a
no-download run. -/
lemma scrape_album_const_none (fetched : Except Str Page) (dc : Bool) :
    scrape_album fetched (fun _ _ => (none, none)) dc =
      scrape_album fetched (fun _ _ => (none, none)) false := by
  cases fetched with
  | error m => rfl
  | ok page =>
      unfold scrape_album scrapeBody
      cases page.coverSrc <;> simp

/-- **C7.** The Cover Image Archiver never raises to its caller: whenever
its body fails (network error, decode error or write error),
`_download_cover` returns `(None, None)`; a scrape run against such a
failing archiver behaves exactly like a no-download run, and any record
it produces has `cover_path` unset. -/
theorem archiver_failure_swallowed (url isbn dir : Str)
    (fI : Except Str (List Nat)) (dI : List Nat → Except Str Unit)
    (sI : Str → Except Str Unit) (e : Str)
    (hfail : download_cover_body url isbn dir fI dI sI = .error e) :
    download_cover url isbn dir fI dI sI = (none, none) ∧
    (∀ (fetched : Except Str Page) (dc : Bool),
        scrape_album fetched
            (fun _ _ => download_cover url isbn dir fI dI sI) dc =
          scrape_album fetched (fun _ _ => (none, none)) false) ∧
    (∀ (fetched : Except Str Page) (dc : Bool) (a : BubbleBDAlbum),
        scrape_album fetched
            (fun _ _ => download_cover url isbn dir fI dI sI) dc = .ok a →
          a.cover_path = none) := by
  have h1 : download_cover url isbn dir fI dI sI = (none, none) := by
    unfold download_cover
    rw [hfail]
  refine ⟨h1, ?_, ?_⟩
  · intro fetched dc
    simp only [h1]
    exact scrape_album_const_none fetched dc
  · intro fetched dc a h
    simp only [h1] at h
    obtain ⟨page, -, hbody⟩ :=
      (scrape_album_ok_iff fetched (fun _ _ => (none, none)) dc a).mp h
    exact (scrapeBody_ok_fields page (fun _ _ => (none, none)) dc a hbody).2.2
      (fun _ _ => rfl)

/-- Witness for C7: a concrete archiver whose image fetch fails with a
network timeout returns the empty pair. -/
theorem archiver_failure_swallowed_witness :
    download_cover (str "https://www.bubblebd.com/c.jpg") (str "9782756")
      (str "static/covers/books") (.error (str "timeout"))
      (fun _ => .ok ()) (fun _ => .ok ()) = (none, none) :=
  (archiver_failure_swallowed (str "https://www.bubblebd.com/c.jpg")
    (str "9782756") (str "static/covers/books") (.error (str "timeout"))
    (fun _ => .ok ()) (fun _ => .ok ()) (str "timeout") (by rfl)).1

/-! List lemmas about first-match updates (MongoDB `update_one`). -/

/-- `update_one` does not change the collection size. -/
lemma updateFirst_length {α : Type} (p : α → Bool) (f : α → α)
    (l : List α) : (updateFirst p f l).length = l.length := by
  induction l with
  | nil => rfl
  | cons x xs ih =>
      unfold updateFirst
      split <;> simp [ih]

/-- A projection untouched by the update is preserved across the whole
collection. -/
lemma updateFirst_map {α β : Type} (p : α → Bool) (f : α → α) (g : α → β)
    (l : List α) (hg : ∀ x, g (f x) = g x) :
    (updateFirst p f l).map g = l.map g := by
  induction l with
  | nil => rfl
  | cons x xs ih =>
      unfold updateFirst
      split <;> simp [ih, hg]

/-- Re-reading by the same first-match predicate after `update_one` sees
the updated document, provided the update preserves the predicate. -/
lemma find?_updateFirst {α : Type} (p : α → Bool) (f : α → α) (l : List α)
    (hp : ∀ x, p x = true → p (f x) = true) :
    (updateFirst p f l).find? p = (l.find? p).map f := by
  induction l with
  | nil => rfl
  | cons x xs ih =>
      unfold updateFirst
      by_cases hx : p x = true
      · simp [hx, List.find?, hp x hx]
      · simp only [Bool.not_eq_true] at hx
        simp [hx, List.find?, ih]

/-- Series phase on a found series: the `series_id` is the found `_id`,
and the collection is either `$set`-updated at that document (truthy,
differing scraped total) or left alone. -/
lemma seriesPhase_found (st : DBState) (album : BubbleBDAlbum) (u : Str)
    (now : Nat) (s : SeriesDoc) (htitle : album.series_title ≠ [])
    (hfound : findSeriesByTitle st album.series_title = some s) :
    seriesPhase st album u now =
      (match album.total_volumes with
       | some t =>
           if t ≠ 0 ∧ some t ≠ s.total_books then
             { st with
                 series :=
                   updateFirst (fun se => se._id == s._id)
                     (setTotalBooks t u now) st.series }
           else st
       | none => st,
        some s._id) := by
  unfold seriesPhase
  rw [if_neg htitle, hfound]

/-- Series phase on an unknown title: a new series document is appended
with `current_book` set to the scraped volume number. -/
lemma seriesPhase_new (st : DBState) (album : BubbleBDAlbum) (u : Str)
    (now : Nat) (htitle : album.series_title ≠ [])
    (hnone : findSeriesByTitle st album.series_title = none) :
    seriesPhase st album u now =
      ({ st with
          series := st.series ++ [newSeriesDoc album st.nextSeriesId u now]
          nextSeriesId := st.nextSeriesId + 1 },
        some st.nextSeriesId) := by
  unfold seriesPhase
  rw [if_neg htitle, hnone]

/-- The store row used by the series-update scenarios: an `Arctica`
series whose stored `total_books` is 5. -/
def seriesS5 : SeriesDoc :=
  { _id := 1
    title := str "Arctica"
    total_books := some 5
    current_book := some 1
    genre := []
    language := str "fr"
    status := str "ongoing"
    notes := []
    created_by := str "u0"
    updated_by := str "u0"
    created_at := 0
    updated_at := 0 }

/-- A store holding only `seriesS5` and no books. -/
def stWithSeries : DBState :=
  { series := [seriesS5], books := [], nextSeriesId := 2, nextBookId := 1 }

/-- A page for the `Arctica` series whose `Tome X/Y` text declares a total
of `0` volumes. -/
def pageTome0 : Page :=
  { h1 := some (str "Arctica Tome 1")
    charRows := some
      [(str "ISBN/EAN", str "9782756"),
       (str "Date de parution", str "12 mars 2015"),
       (str "Nombre de pages", str "48")]
    authorsLinks := none
    themesLinks := none
    seriesTitleH1 := some (str "Arctica")
    tomeTotalMatch := some 0
    tomeNumberMatch := some 1
    synopsisDiv := none
    coverSrc := none }

/-- The album scraped from `pageTome0`: its scraped total-volume count is
`0`. -/
def albumTome0 : BubbleBDAlbum :=
  match scrape_album (.ok pageTome0) (fun _ _ => (none, none)) false with
  | .ok a => a
  | .error _ => default

/-- **C5 (counterexample).** The claim says a scraped total-volume count
differing from the stored value is always written back.  The code guards
the update with Python truthiness (`if album.total_volumes and …`), so a
scraped count of `0` — extractable from a `Tome 1/0` page text — differs
from the stored `5` yet leaves the stored series untouched (no
`total_books` write, no audit-timestamp update). -/
theorem series_total_zero_not_updated :
    albumTome0.total_volumes = some 0 ∧
    albumTome0.series_title = seriesS5.title ∧
    albumTome0.total_volumes ≠ seriesS5.total_books ∧
    (add_scraped_album stWithSeries (.ok albumTome0) (str "u1") 7).map
        (fun r => r.1.series) = .ok [seriesS5] :=
  ⟨by rfl, by rfl, by decide, by rfl⟩

/-- **C5 (amended).** For every import whose series title exactly matches
an existing series record, if the scraped total-volume count is present,
non-zero (truthy) and differs from the stored `total_books`, then the
stored series' `total_books` is set to the scraped value and its audit
fields are re-stamped, and no second series record with that title is
created (the collection keeps the same length and the same titles). -/
theorem series_total_books_updated (st : DBState) (album : BubbleBDAlbum)
    (u : Str) (now : Nat) (st' : DBState) (b : BookDoc) (t : Nat)
    (s : SeriesDoc)
    (hfresh : ∀ bk ∈ st.books, bk._id ≠ st.nextBookId)
    (htitle : album.series_title ≠ [])
    (hfound : findSeriesByTitle st album.series_title = some s)
    (hid : findSeriesById st s._id = some s)
    (ht : album.total_volumes = some t) (ht0 : t ≠ 0)
    (hdiff : some t ≠ s.total_books)
    (himp : add_scraped_album st (.ok album) u now = .ok (st', b)) :
    findSeriesById st' s._id =
      some { s with total_books := some t, updated_by := u, updated_at := now } ∧
    st'.series.map SeriesDoc.title = st.series.map SeriesDoc.title ∧
    st'.series.length = st.series.length := by
  have hb := (add_scraped_album_ok_iff st (.ok album) u now (st', b)).mp himp
  obtain ⟨pd, -, -, hst⟩ :=
    addScrapedBody_ok_anatomy st album u now st' b hfresh hb
  have hphase := seriesPhase_found st album u now s htitle hfound
  rw [ht] at hphase
  simp only at hphase
  rw [if_pos ⟨ht0, hdiff⟩] at hphase
  have hser : st'.series =
      updateFirst (fun se => se._id == s._id)
        (setTotalBooks t u now) st.series := by
    rw [hst, hphase]
  have hpres : ∀ se : SeriesDoc,
      ((fun se : SeriesDoc => se._id == s._id) se) = true →
        ((fun se : SeriesDoc => se._id == s._id)
          (setTotalBooks t u now se)) = true := by
    intro se hse
    simpa [setTotalBooks] using hse
  refine ⟨?_, ?_, ?_⟩
  · unfold findSeriesById
    rw [hser, find?_updateFirst _ _ _ hpres]
    unfold findSeriesById at hid
    rw [hid]
    rfl
  · rw [hser]
    exact updateFirst_map _ _ _ _ (fun x => rfl)
  · rw [hser]
    exact updateFirst_length _ _ _

/-- A concrete album for the `Arctica` series declaring 12 volumes. -/
def albumT12 : BubbleBDAlbum :=
  { title := str "Arctica Tome 1"
    isbn := str "9782756"
    authors := [str "A. Doe"]
    publisher := str "Delcourt"
    publication_date := str "2015-03-12"
    pages := 48
    genre := []
    language := str "fr"
    series_number := some 1
    status := str "wanted"
    notes := []
    cover_url := []
    cover_path := none
    synopsis := []
    series_title := str "Arctica"
    total_volumes := some 12 }

/-- The store/book pair resulting from importing `albumT12` into
`stWithSeries`. -/
def importT12 : DBState × BookDoc :=
  match add_scraped_album stWithSeries (.ok albumT12) (str "u1") 7 with
  | .ok r => r
  | .error _ => (dbEmpty, default)

/-- Witness for the amended C5: importing the 12-volume `Arctica` album
against the stored 5-volume series rewrites `total_books` to 12, stamps
the audit fields, and leaves one single `Arctica` series. -/
theorem series_total_books_updated_witness :
    findSeriesById importT12.1 seriesS5._id =
      some { seriesS5 with
              total_books := some 12, updated_by := str "u1",
              updated_at := 7 } ∧
    importT12.1.series.map SeriesDoc.title =
      stWithSeries.series.map SeriesDoc.title ∧
    importT12.1.series.length = stWithSeries.series.length :=
  series_total_books_updated stWithSeries albumT12 (str "u1") 7
    importT12.1 importT12.2 12 seriesS5
    (by intro bk hbk; simp [stWithSeries] at hbk)
    (by decide) (by rfl) (by rfl) (by rfl) (by decide) (by decide) (by rfl)

/-- **C8.** An import that matches an existing series record leaves every
series' `current_book` pointer unmodified (the `$set` only touches
`total_books` and the audit fields); `current_book` is written only when
a series is created, where it is set to the scraped volume number. -/
theorem series_current_book_frame (st : DBState) (album : BubbleBDAlbum)
    (u : Str) (now : Nat) (st' : DBState) (b : BookDoc)
    (hfresh : ∀ bk ∈ st.books, bk._id ≠ st.nextBookId)
    (htitle : album.series_title ≠ [])
    (himp : add_scraped_album st (.ok album) u now = .ok (st', b)) :
    (∀ s, findSeriesByTitle st album.series_title = some s →
      st'.series.map SeriesDoc.current_book =
        st.series.map SeriesDoc.current_book) ∧
    (findSeriesByTitle st album.series_title = none →
      st'.series.map SeriesDoc.current_book =
        st.series.map SeriesDoc.current_book ++ [album.series_number]) := by
  have hb := (add_scraped_album_ok_iff st (.ok album) u now (st', b)).mp himp
  obtain ⟨pd, -, -, hst⟩ :=
    addScrapedBody_ok_anatomy st album u now st' b hfresh hb
  have hser : st'.series = (seriesPhase st album u now).1.series := by
    rw [hst]
  constructor
  · intro s hfound
    have hphase := seriesPhase_found st album u now s htitle hfound
    rw [hser, hphase]
    cases album.total_volumes with
    | none => rfl
    | some t =>
        simp only
        split
        · exact updateFirst_map _ _ _ _ (fun x => by simp [setTotalBooks])
        · rfl
  · intro hnone
    have hphase := seriesPhase_new st album u now htitle hnone
    rw [hser, hphase]
    simp [newSeriesDoc]

/-- Witness for C8: the `Arctica` import of `importT12` updates
`total_books` but leaves `current_book` pointing at volume 1. -/
theorem series_current_book_frame_witness :
    importT12.1.series.map SeriesDoc.current_book =
      stWithSeries.series.map SeriesDoc.current_book :=
  (series_current_book_frame stWithSeries albumT12 (str "u1") 7
    importT12.1 importT12.2
    (by intro bk hbk; simp [stWithSeries] at hbk)
    (by decide) (by rfl)).1 seriesS5 (by rfl)

/-- **C9.** Deleting the only book referencing a series (the last book of
that series) also removes the series record itself: on a store holding
exactly that book and its series, `delete_book` empties both
collections. -/
theorem delete_last_book_deletes_series (s : SeriesDoc) (b : BookDoc)
    (ns nb : Nat) (u : Str) (now : Nat)
    (href : b.series_id = some s._id) :
    delete_book
        { series := [s], books := [b], nextSeriesId := ns, nextBookId := nb }
        b._id u now =
      .ok ({ series := [], books := [], nextSeriesId := ns, nextBookId := nb },
        true) := by
  unfold delete_book deleteBookBody
  simp [findBookById, removeFirst, href, List.find?, Except.instMonad,
    Except.bind, Except.pure]

/-- A book of the `Arctica` series with id `i` and volume number `n`. -/
def bookV (i n : Nat) : BookDoc :=
  { _id := i
    title := str "Arctica Tome 1"
    isbn := str "9782756"
    author := []
    publisher := str "Delcourt"
    publication_date := str "2015-03-12"
    pages := 48
    genre := []
    language := str "fr"
    series_id := some 1
    series_number := some n
    status := str "wanted"
    notes := []
    cover_url := []
    synopsis := []
    created_by := str "u0"
    updated_by := str "u0"
    created_at := 0
    updated_at := 0 }

/-- Witness for C9: deleting the single `Arctica` book removes the
`Arctica` series as well. -/
theorem delete_last_book_deletes_series_witness :
    delete_book
        { series := [seriesS5], books := [bookV 3 1], nextSeriesId := 2,
          nextBookId := 4 }
        (bookV 3 1)._id (str "u1") 7 =
      .ok ({ series := [], books := [], nextSeriesId := 2, nextBookId := 4 },
        true) :=
  delete_last_book_deletes_series seriesS5 (bookV 3 1) 2 4 (str "u1") 7
    (by rfl)

/-- An `Arctica` series whose `current_book` pointer (5) matches neither
referencing book — reachable through the CRUD update surface. -/
def seriesCB5 : SeriesDoc :=
  { seriesS5 with total_books := some 2, current_book := some 5 }

/-- A store with `seriesCB5` referenced by two books, volumes 1 and 2. -/
def stTwoBooks : DBState :=
  { series := [seriesCB5], books := [bookV 1 1, bookV 2 2],
    nextSeriesId := 2, nextBookId := 3 }

/-- **C4 (counterexample).** The claim says that after deleting one of two
books of a series, `current_book` equals the remaining book's volume
number.  The code only recomputes `current_book` when it equaled the
deleted book's volume number: with `current_book = 5` and books numbered
1 and 2, deleting book 2 leaves the series with `current_book = 5`, not
the remaining book's number 1. -/
theorem delete_one_of_two_stale_pointer :
    (delete_book stTwoBooks 2 (str "u1") 7).map
        (fun r => r.1.series.map SeriesDoc.current_book) = .ok [some 5] ∧
    (some 5 : Option Nat) ≠ (bookV 1 1).series_number :=
  ⟨by rfl, by decide⟩

/-- **C4 (amended).** After `delete_book` removes one of two books
referencing the same series, the series record still exists; provided the
series' `current_book` beforehand equaled one of the two books' volume
numbers (as holds for series created by the import path), it ends up
equal to the remaining book's volume number: when it equaled the deleted
book's number it is recomputed to the maximum remaining volume number,
otherwise it is left unchanged.  Both deletion orders are covered. -/
theorem delete_one_of_two_books_series_kept (s : SeriesDoc)
    (b1 b2 : BookDoc) (ns nb : Nat) (u : Str) (now : Nat)
    (hne : b1._id ≠ b2._id)
    (h1 : b1.series_id = some s._id) (h2 : b2.series_id = some s._id)
    (hcb : s.current_book = b1.series_number ∨
      s.current_book = b2.series_number) :
    (∃ s',
      delete_book
          { series := [s], books := [b1, b2], nextSeriesId := ns,
            nextBookId := nb }
          b2._id u now =
        .ok ({ series := [s'], books := [b1], nextSeriesId := ns,
               nextBookId := nb }, true) ∧
      s'.current_book = b1.series_number ∧ s'._id = s._id ∧
      s'.title = s.title) ∧
    (∃ s',
      delete_book
          { series := [s], books := [b1, b2], nextSeriesId := ns,
            nextBookId := nb }
          b1._id u now =
        .ok ({ series := [s'], books := [b2], nextSeriesId := ns,
               nextBookId := nb }, true) ∧
      s'.current_book = b2.series_number ∧ s'._id = s._id ∧
      s'.title = s.title) := by
  have hne12 : (b1._id == b2._id) = false := by
    simp [hne]
  constructor
  · by_cases hc : s.current_book == b2.series_number
    · refine ⟨{ s with
                  current_book := b1.series_number,
                  updated_by := u,
                  updated_at := now }, ?_, rfl, rfl, rfl⟩
      unfold delete_book deleteBookBody
      simp [findBookById, removeFirst, updateFirst, findSeriesById,
        findMaxBySeriesNumber, h1, h2, hne12, hc, List.find?,
        Except.instMonad, Except.bind, Except.pure]
      rw [if_pos (show s.current_book = b2.series_number from by
        simpa using hc)]
    · have hcb1 : s.current_book = b1.series_number := by
        cases hcb with
        | inl h => exact h
        | inr h => exact absurd (by simp [h]) hc
      refine ⟨s, ?_, hcb1, rfl, rfl⟩
      unfold delete_book deleteBookBody
      simp [findBookById, removeFirst, findSeriesById, h1, h2, hne12, hc,
        List.find?, Except.instMonad, Except.bind, Except.pure]
      rw [if_neg (show ¬ s.current_book = b2.series_number from by
        simpa using hc)]
  · by_cases hc : s.current_book == b1.series_number
    · refine ⟨{ s with
                  current_book := b2.series_number,
                  updated_by := u,
                  updated_at := now }, ?_, rfl, rfl, rfl⟩
      unfold delete_book deleteBookBody
      simp [findBookById, removeFirst, updateFirst, findSeriesById,
        findMaxBySeriesNumber, h1, h2, hc, List.find?,
        Except.instMonad, Except.bind, Except.pure]
      rw [if_pos (show s.current_book = b1.series_number from by
        simpa using hc)]
    · have hcb2 : s.current_book = b2.series_number := by
        cases hcb with
        | inl h => exact absurd (by simp [h]) hc
        | inr h => exact h
      refine ⟨s, ?_, hcb2, rfl, rfl⟩
      unfold delete_book deleteBookBody
      simp [findBookById, removeFirst, findSeriesById, h1, h2, hc,
        List.find?, Except.instMonad, Except.bind, Except.pure]
      rw [if_neg (show ¬ s.current_book = b1.series_number from by
        simpa using hc)]

/-- Witness for the amended C4: with `current_book = 1` and books numbered
1 and 2, deleting book 2 keeps the series with `current_book = 1`, the
remaining book's volume number. -/
theorem delete_one_of_two_books_series_kept_witness :
    (delete_book
        { series := [seriesS5], books := [bookV 1 1, bookV 2 2],
          nextSeriesId := 2, nextBookId := 3 }
        (bookV 2 2)._id (str "u1") 7 =
      .ok ({ series := [seriesS5], books := [bookV 1 1], nextSeriesId := 2,
             nextBookId := 3 }, true)) ∧
    seriesS5.current_book = (bookV 1 1).series_number := by
  obtain ⟨s', hdel, hcb, hid, htitle⟩ :=
    (delete_one_of_two_books_series_kept seriesS5 (bookV 1 1) (bookV 2 2)
      2 3 (str "u1") 7 (by decide) (by rfl) (by rfl)
      (Or.inl (by rfl))).1
  refine ⟨?_, by rfl⟩
  have hs' : s' = seriesS5 := by
    have h5 : findSeriesById
        { series := [seriesS5], books := [bookV 1 1], nextSeriesId := 2,
          nextBookId := 3 } seriesS5._id = some seriesS5 := by rfl
    have h6 := hdel
    rw [show delete_book
          { series := [seriesS5], books := [bookV 1 1, bookV 2 2],
            nextSeriesId := 2, nextBookId := 3 }
          (bookV 2 2)._id (str "u1") 7 =
        .ok ({ series := [seriesS5], books := [bookV 1 1],
               nextSeriesId := 2, nextBookId := 3 }, true) from by rfl] at h6
    have := (Except.ok.injEq _ _).mp h6
    have := congrArg (fun p => p.1.series) this
    simpa using this.symm
  rw [hs'] at hdel
  exact hdel

end ACM
